import Mathlib

/-!
Verification of the github_analy analysis pipeline.

Shallow embedding of the TypeScript source:
  - src/lib/types.ts        (data model, validateAnalysis, analyzeProfile,
                             _compareProfilesRaw, compareProfiles cache key)
  - src/app/actions.ts      (performAnalysis, in-memory dual cache)
  - the comparison server action performComparison

JS numbers are modelled as Int (every number the pipeline manipulates is an
integer after Math.round; NaN is not representable in this model and is noted
where JS truthiness would treat it as falsy).  Optional / possibly-missing JSON
fields are modelled as Option.  Functions of the repository that are not part
of the sources (extractUsername, checkRateLimit, the network fetchers and the
model call) appear as inputs of an explicit environment, so that each code path
of the embedded functions is the path the source takes for that environment.
-/

/-- JS String.prototype.toLowerCase, as a character-wise lowering.  Defined
through List.map rather than String.map so that concrete instances reduce
inside the kernel. -/
def String.jsLower (s : String) : String := ⟨s.data.map Char.toLower⟩


namespace GithubAnaly

/-! ## JS semantics helpers -/

/-- JS truthiness of an optional string: undefined and the empty string are falsy.
Mirrors checks of the form if (!clean1) in the server actions. -/
def jsStrTruthy : Option String → Option String
  | none => none
  | some s => if s = "" then none else some s

/-- JS x || d for an optional integer x: undefined and the falsy number 0 yield d.
NaN, the remaining falsy number, is not representable for Int. -/
def jsNumOr (x : Option Int) (d : Int) : Int :=
  match x with
  | none => d
  | some n => if n = 0 then d else n

/-! ## Data model (src/lib/types.ts) -/

structure GitHubUser where
  login : String
  name : Option String
  bio : Option String
  avatar_url : String
  html_url : String
  company : Option String
  location : Option String
  blog : Option String
  twitter_username : Option String
  followers : Int
  following : Int
  public_repos : Int
  public_gists : Int
  created_at : String
  updated_at : String
deriving DecidableEq

structure RepoLicense where
  name : String
  spdx_id : String
deriving DecidableEq

structure GitHubRepo where
  name : String
  full_name : String
  html_url : String
  description : Option String
  language : Option String
  stargazers_count : Int
  forks_count : Int
  watchers_count : Int
  open_issues_count : Int
  topics : List String
  created_at : String
  updated_at : String
  pushed_at : String
  homepage : Option String
  fork : Bool
  has_wiki : Bool
  has_pages : Bool
  license : Option RepoLicense
  readme_content : Option String
deriving DecidableEq

/-- Deep-scan payload attached by fetchGitHubDataLite: README and manifest of
the top-ranked repository. -/
structure DeepScan where
  top_repo_name : String
  readme : Option String
  package_json : Option String
deriving DecidableEq

structure GitHubProfileData where
  user : GitHubUser
  repos : List GitHubRepo
  deep_scan : Option DeepScan := none
  fetchedAt : String
deriving DecidableEq

structure DimensionScore where
  score : Int
  comment : String
deriving DecidableEq

/-- The five dimension entries of an AnalysisResult.  Each is optional because
the value under validation is whatever JSON.parse produced from the model
response, which may omit keys. -/
structure Dimensions where
  documentation : Option DimensionScore
  code_structure : Option DimensionScore
  consistency : Option DimensionScore
  impact : Option DimensionScore
  technical_depth : Option DimensionScore
deriving DecidableEq

/-- The five dimension keys, in the order the validateAnalysis loop visits them. -/
inductive DimKey
  | documentation
  | code_structure
  | consistency
  | impact
  | technical_depth
deriving DecidableEq

def Dimensions.get (d : Dimensions) : DimKey → Option DimensionScore
  | .documentation => d.documentation
  | .code_structure => d.code_structure
  | .consistency => d.consistency
  | .impact => d.impact
  | .technical_depth => d.technical_depth

def DimKey.all : List DimKey :=
  [.documentation, .code_structure, .consistency, .impact, .technical_depth]

/-- AnalysisResult.  total_score and actionable_feedback are optional on the
input side (legacy / hallucinated responses); validateAnalysis always sets
them.  A none actionable_feedback also stands for a non-array value. -/
structure AnalysisResult where
  total_score : Option Int
  summary : String
  role_fit : String
  dimensions : Dimensions
  recruiter_verdict : String
  actionable_feedback : Option (List String)
  isMockData : Bool := false
deriving DecidableEq

/-- Both persona results from a single AI call. -/
structure DualAnalysisResult where
  recruiter : AnalysisResult
  founder : AnalysisResult
deriving DecidableEq

structure UserStats where
  score : Int
  top_repo : String
deriving DecidableEq

structure HeadToHead where
  velocity : String
  quality : String
  impact : String
deriving DecidableEq

structure DeepScanInsights where
  user1_insight : String
  user2_insight : String
deriving DecidableEq

structure CompareResult where
  winner : String
  winner_reason : String
  head_to_head : HeadToHead
  user1_stats : UserStats
  user2_stats : UserStats
  user1_username : String
  user2_username : String
  deep_scan_insights : Option DeepScanInsights := none
deriving DecidableEq

/-- The closed persona set of the pipeline. -/
inductive Persona
  | recruiter
  | founder
deriving DecidableEq

def Persona.str : Persona → String
  | .recruiter => "recruiter"
  | .founder => "founder"

def DualAnalysisResult.select (d : DualAnalysisResult) : Persona → AnalysisResult
  | .recruiter => d.recruiter
  | .founder => d.founder

/-- A thrown JS Error, reduced to the message the catch blocks read. -/
structure Err where
  message : String
deriving DecidableEq

/-! ## validateAnalysis (src/lib/types.ts lines 547 to 574) -/

/-- Fixed verdict set checked by validateAnalysis. -/
def fixedVerdicts : List String := ["Strong Hire", "Interview", "Pass"]

/-- Clamp of one dimension score:
Math.max(0, Math.min(10, Math.round(Boolean(rawDimScore) ? rawDimScore : 0))).
Math.round is the identity on Int and Boolean(n) is false exactly at n = 0. -/
def clampDimScore (raw : Int) : Int :=
  max 0 (min 10 (if raw = 0 then 0 else raw))

/-- One step of the dimension loop: an absent key is left untouched, a present
entry has its score clamped in place. -/
def validateDim : Option DimensionScore → Option DimensionScore
  | none => none
  | some d => some { d with score := clampDimScore d.score }

/-- What one dimension key adds to calculatedTotal: present entries add their
clamped score, absent keys add nothing. -/
def dimContribution : Option DimensionScore → Int
  | none => 0
  | some d => clampDimScore d.score

/-- calculatedTotal accumulated by the loop over the five keys. -/
def calculatedTotal (dims : Dimensions) : Int :=
  dimContribution dims.documentation + dimContribution dims.code_structure +
    dimContribution dims.consistency + dimContribution dims.impact +
    dimContribution dims.technical_depth

/-- First clamp of the incoming total:
Math.max(0, Math.min(100, Math.round(parsed.total_score || 0))). -/
def firstClampedTotal (parsed : AnalysisResult) : Int :=
  max 0 (min 100 (jsNumOr parsed.total_score 0))

/-- Final total: the falsy check !rawTotalScore || rawTotalScore === 0 on the
already clamped integer total reduces to equality with 0; the zero branch
recomputes calculatedTotal * 2, the other branch re-clamps. -/
def validatedTotal (parsed : AnalysisResult) : Int :=
  if firstClampedTotal parsed = 0 then calculatedTotal parsed.dimensions * 2
  else max 0 (min 100 (firstClampedTotal parsed))

/-- Verdict derivation of line 570:
total_score >= 70 ? "Strong Hire" : total_score >= 45 ? "Interview" : "Pass". -/
def verdictFromScore (total : Int) : String :=
  if total ≥ 70 then "Strong Hire" else if total ≥ 45 then "Interview" else "Pass"

/-- validateAnalysis: clamps the total into [0,100], defaults the feedback
list, clamps each present dimension score into [0,10] while accumulating
calculatedTotal, recomputes a missing or zero total as calculatedTotal * 2,
and replaces a verdict outside the fixed three-value set by one derived from
the final total. -/
def validateAnalysis (parsed : AnalysisResult) : AnalysisResult :=
  { parsed with
      total_score := some (validatedTotal parsed)
      actionable_feedback := some (parsed.actionable_feedback.getD [])
      dimensions :=
        { documentation := validateDim parsed.dimensions.documentation
          code_structure := validateDim parsed.dimensions.code_structure
          consistency := validateDim parsed.dimensions.consistency
          impact := validateDim parsed.dimensions.impact
          technical_depth := validateDim parsed.dimensions.technical_depth }
      recruiter_verdict :=
        if fixedVerdicts.contains parsed.recruiter_verdict then parsed.recruiter_verdict
        else verdictFromScore (validatedTotal parsed) }

/-! ## compareProfiles cache key (src/lib/types.ts lines 917 to 943) -/

/-- JS Array.prototype.sort on the two-element array [u1, u2]: the default
comparator orders strings lexicographically. -/
def jsSortPair (a b : String) : String × String :=
  if a ≤ b then (a, b) else (b, a)

/-- Cache key built by compareProfiles:
battle-(sortedUsernames[0])-(sortedUsernames[1])-(persona), where the two
lowercased logins are sorted alphabetically. -/
def compareCacheKey (user1Data user2Data : GitHubProfileData) (persona : Persona) : String :=
  let u1 := user1Data.user.login.jsLower
  let u2 := user2Data.user.login.jsLower
  let sortedUsernames := jsSortPair u1 u2
  "battle-" ++ sortedUsernames.1 ++ "-" ++ sortedUsernames.2 ++ "-" ++ persona.str

/-! ## Mock constants of src/lib/types.ts (MOCK_DUAL, MOCK_COMPARE) -/

def MOCK_DUAL : DualAnalysisResult :=
  { recruiter :=
      { total_score := some 57
        summary := "Candidate shows foundational understanding of modern web technologies but lacks production-grade engineering signals. No test suites, no CI/CD pipelines, and documentation is surface-level. Would need significant mentorship."
        role_fit := "Junior Dev"
        dimensions :=
          { documentation := some { score := 4, comment := "READMEs are install-only. No architecture context or design rationale." }
            code_structure := some { score := 6, comment := "Reasonable folder structure but no evidence of design patterns or abstractions." }
            consistency := some { score := 5, comment := "Sporadic commit frequency with multi-week gaps." }
            impact := some { score := 4, comment := "Portfolio projects only. No evidence of real-world users or problem-solving." }
            technical_depth := some { score := 7, comment := "Competent with Next.js and TypeScript. Missing backend and infrastructure depth." } }
        recruiter_verdict := "Interview"
        actionable_feedback := some
          ["Add Jest/Vitest tests to at least one project — this alone would boost your score by 10+ points.",
           "Set up GitHub Actions CI/CD to demonstrate DevOps awareness.",
           "Expand READMEs with architecture decisions, not just setup instructions."] }
    founder :=
      { total_score := some 73
        summary := "This person ships. Multiple finished projects, some with live deployment links. Not overthinking it — just building. Exactly the mentality a seed-stage startup needs."
        role_fit := "Indie Hacker"
        dimensions :=
          { documentation := some { score := 6, comment := "Good enough to onboard someone quickly. Functional, not fancy." }
            code_structure := some { score := 5, comment := "Scrappy but it works. Not enterprise-grade, but who cares at this stage." }
            consistency := some { score := 7, comment := "Regular commits show a builder mentality. Keeps iterating." }
            impact := some { score := 8, comment := "Deployed apps that solve real problems. User-centric thinking." }
            technical_depth := some { score := 6, comment := "Pragmatic stack choices. Ships with Next.js, doesn\x27t overthink." } }
        recruiter_verdict := "Interview"
        actionable_feedback := some
          ["Add Google Analytics to deployed apps and showcase real user numbers.",
           "Build one project with payments or auth to prove full-stack chops.",
           "Write a \x27How I Built This\x27 blog post to flex product thinking."] } }

def MOCK_COMPARE : CompareResult :=
  { winner := "user1"
    winner_reason := "Candidate A has stronger documentation, more consistent commit history, and demonstrates CI/CD awareness across multiple repos."
    head_to_head := { velocity := "user2", quality := "user1", impact := "user1" }
    user1_stats := { score := 73, top_repo := "portfolio-analyzer" }
    user2_stats := { score := 61, top_repo := "todo-app" }
    user1_username := "demo1"
    user2_username := "demo2"
    deep_scan_insights := some
      { user1_insight := "Strong modern stack: Next.js, TypeScript, Prisma, and Tailwind detected in package.json. README includes architecture diagrams."
        user2_insight := "Basic CRA setup with no custom dependencies. README is default boilerplate." } }

/-- Note prepended to both summaries by the final fallback of analyzeProfile. -/
def failNotePrefix : String := "(System Note: Live analysis failed. Showing demo data.) "

/-- The final fallback of analyzeProfile: MOCK_DUAL with isMockData set and the
failure note prepended to each summary. -/
def fallbackDual : DualAnalysisResult :=
  { recruiter := { MOCK_DUAL.recruiter with
      isMockData := true
      summary := failNotePrefix ++ MOCK_DUAL.recruiter.summary }
    founder := { MOCK_DUAL.founder with
      isMockData := true
      summary := failNotePrefix ++ MOCK_DUAL.founder.summary } }

/-! ## Retry loop of the model client (MAX_RETRIES attempts, lastError kept) -/

def MAX_RETRIES : Nat := 2

/-- The for-loop over attempts: attempt i either returns its value or stores
its error as lastError and moves on; when the fuel (remaining attempts) runs
out the loop falls through carrying the last error. -/
def retryAttempts {α : Type} (f : Nat → Except Err α) :
    Nat → Nat → Option Err → Except (Option Err) α
  | _, 0, lastError => Except.error lastError
  | i, fuel + 1, _lastError =>
    match f i with
    | Except.ok a => Except.ok a
    | Except.error e => retryAttempts f (i + 1) fuel (some e)

/-- Environment of analyzeProfile: demo-mode flag, API key, and the outcome of
each live attempt (network call, JSON extraction/parse and the both-personas
presence check, all of which throw into the catch on failure). -/
structure AIEnv where
  demoMode : Bool
  apiKey : Option String
  attempts : Nat → Except Err DualAnalysisResult

/-- analyzeProfile (src/lib/types.ts lines 580 to 690): demo bypass, API-key
check, retry loop applying validateAnalysis to both personas on success, and
the final fallback to flagged mock data when every attempt failed. -/
def analyzeProfile (env : AIEnv) (profileData : GitHubProfileData) :
    Except Err DualAnalysisResult :=
  if profileData.user.login.jsLower = "demo" ∨ profileData.user.login.jsLower = "test" ∨
      env.demoMode then
    Except.ok MOCK_DUAL
  else
    match env.apiKey with
    | none => Except.error
        { message := "OPENROUTER_API_KEY is not set. Please add it to your .env.local file." }
    | some _ =>
      match retryAttempts env.attempts 0 MAX_RETRIES none with
      | Except.ok parsed => Except.ok
          { recruiter := validateAnalysis parsed.recruiter
            founder := validateAnalysis parsed.founder }
      | Except.error _ => Except.ok fallbackDual

/-- Environment of the raw comparison call. -/
structure CompareAIEnv where
  demoMode : Bool
  apiKey : Option String
  attempts : Nat → Except Err CompareResult

/-- Score clamp of the comparison path: Math.min(100, Math.max(0, Math.round(n))). -/
def clamp (n : Int) : Int := min 100 (max 0 n)

/-- The raw comparison _compareProfilesRaw (src/lib/types.ts lines 778 to 910):
demo bypass, API-key check, retry loop clamping both scores and attaching the
usernames on success, and a thrown final error when every attempt failed. -/
def compareProfilesRaw (env : CompareAIEnv) (user1Data user2Data : GitHubProfileData)
    (_persona : Persona) : Except Err CompareResult :=
  let u1 := user1Data.user.login
  let u2 := user2Data.user.login
  if env.demoMode ∨ u1.jsLower = "demo" ∨ u2.jsLower = "demo" then
    Except.ok { MOCK_COMPARE with user1_username := u1, user2_username := u2 }
  else
    match env.apiKey with
    | none => Except.error { message := "OPENROUTER_API_KEY is not set." }
    | some _ =>
      match retryAttempts env.attempts 0 MAX_RETRIES none with
      | Except.ok parsed => Except.ok
          { parsed with
              user1_stats := { parsed.user1_stats with score := clamp parsed.user1_stats.score }
              user2_stats := { parsed.user2_stats with score := clamp parsed.user2_stats.score }
              user1_username := u1
              user2_username := u2 }
      | Except.error lastError =>
          Except.error (lastError.getD { message := "AI comparison failed after all retries" })

/-! ## In-memory dual cache (src/app/actions.ts lines 14 to 52) -/

def CACHE_TTL_MS : Int := 10 * 60 * 1000

structure DualCacheEntry where
  dualResult : DualAnalysisResult
  profileData : GitHubProfileData
  timestamp : Int
deriving DecidableEq

/-- The module-level Map of actions.ts, as an association list with Map
semantics: set replaces the binding of the key, get returns its binding. -/
abbrev Cache : Type := List (String × DualCacheEntry)

def cacheGet : Cache → String → Option DualCacheEntry
  | [], _ => none
  | p :: rest, key => if p.1 = key then some p.2 else cacheGet rest key

def cacheDelete : Cache → String → Cache
  | [], _ => []
  | p :: rest, key => if p.1 = key then cacheDelete rest key else p :: cacheDelete rest key

def cacheSet (cache : Cache) (key : String) (v : DualCacheEntry) : Cache :=
  (key, v) :: cacheDelete cache key

/-- getCachedDual: lookup by lowercased username at the current time; an entry
strictly older than CACHE_TTL_MS is deleted and reported absent.  The result
is returned together with the cache state after the access. -/
def getCachedDual (username : String) (cache : Cache) (now : Int) :
    Option DualCacheEntry × Cache :=
  let key := username.jsLower
  match cacheGet cache key with
  | none => (none, cache)
  | some entry =>
    if now - entry.timestamp > CACHE_TTL_MS then (none, cacheDelete cache key)
    else (some entry, cache)

/-- setCachedDual: store the dual result and profile data under the lowercased
username, stamped with the current time. -/
def setCachedDual (username : String) (dualResult : DualAnalysisResult)
    (profileData : GitHubProfileData) (now : Int) (cache : Cache) : Cache :=
  cacheSet cache username.jsLower
    { dualResult := dualResult, profileData := profileData, timestamp := now }

/-! ## performAnalysis (src/app/actions.ts lines 61 to 214) -/

structure AnalysisResponse where
  success : Bool
  data : Option AnalysisResult := none
  profileData : Option GitHubProfileData := none
  error : Option String := none
deriving DecidableEq

/-- Modelled from the spec: result shape of checkRateLimit (src/lib/rate-limit.ts
is not among the sources; the spec contract is admit(clientIdentifier) with an
allowed flag, a remaining count and a retry-after duration). -/
structure RateLimitResult where
  allowed : Bool
  remaining : Int
  retryAfterMs : Option Int
deriving DecidableEq

/-- Math.ceil(ms / 1000) for the nonnegative millisecond durations the rate
limiter reports. -/
def ceilSeconds (ms : Int) : Int := (ms + 999) / 1000

/-- Environment of one performAnalysis run.  extracted is the value of
extractUsername(username) (src/lib/utils.ts is not among the sources), and the
two awaited calls appear as their outcomes. -/
structure ActionEnv where
  rateLimitResult : RateLimitResult
  extracted : Option String
  fetchOutcome : Except Err GitHubProfileData
  analyzeOutcome : Except Err DualAnalysisResult

/-- JS String.prototype.includes. -/
def jsIncludes (s sub : String) : Bool := s.containsSubstr sub.toSubstring

/-- The catch block of performAnalysis: maps the lowercased message of the
thrown error onto one of the pre-written user-facing strings, with a generic
fallback so raw messages never leak from this action. -/
def performAnalysisCatch (trimmedUsername : String) (e : Err) : AnalysisResponse :=
  let message := e.message.jsLower
  if jsIncludes message "not found" && !(jsIncludes message "model") then
    { success := false, error := some ("GitHub user \"" ++ trimmedUsername ++
        "\" not found. Please check the username and try again.") }
  else if jsIncludes message "rate limit" && !(jsIncludes message "quota") then
    { success := false,
      error := some "GitHub API rate limit reached. Please try again in a few minutes." }
  else if jsIncludes message "bad credentials" then
    { success := false,
      error := some "GitHub token is invalid. Please check your GITHUB_TOKEN in .env.local." }
  else if jsIncludes message "openrouter_api_key" then
    { success := false,
      error := some "AI service is not configured. Please add OPENROUTER_API_KEY to .env.local." }
  else if jsIncludes message "429" || jsIncludes message "quota" ||
      jsIncludes message "too many requests" || jsIncludes message "resource exhausted" then
    { success := false,
      error := some "AI service rate limit reached. Please wait 1-2 minutes and try again. (Free tier has limited requests per minute.)" }
  else if jsIncludes message "model" && jsIncludes message "not found" then
    { success := false,
      error := some "AI model configuration error. Please contact the administrator." }
  else
    { success := false,
      error := some "An unexpected error occurred during analysis. Please try again in a moment." }

/-- performAnalysis: rate limit, input validation, cache lookup, fetch,
dual-persona analysis, conditional cache store (never for mock data), and
unwrap of the selected persona.  Returns the response and the cache state
after the run. -/
def performAnalysis (env : ActionEnv) (cache : Cache) (now : Int) (persona : Persona) :
    AnalysisResponse × Cache :=
  if !env.rateLimitResult.allowed then
    ({ success := false,
       error := some ("Too many requests. Please wait " ++
         toString (ceilSeconds (jsNumOr env.rateLimitResult.retryAfterMs 0)) ++
         " seconds before trying again.") }, cache)
  else
    match jsStrTruthy env.extracted with
    | none =>
        ({ success := false,
           error := some "Please enter a valid GitHub username or profile URL." }, cache)
    | some cleanUsername =>
      if cleanUsername.length > 39 then
        ({ success := false, error := some "Username is too long." }, cache)
      else
        match getCachedDual cleanUsername cache now with
        | (some cached, cache1) =>
            ({ success := true, data := some (cached.dualResult.select persona),
               profileData := some cached.profileData }, cache1)
        | (none, cache1) =>
          match env.fetchOutcome with
          | Except.error e => (performAnalysisCatch cleanUsername e, cache1)
          | Except.ok profileData =>
            match env.analyzeOutcome with
            | Except.error e => (performAnalysisCatch cleanUsername e, cache1)
            | Except.ok dualResult =>
              let cache2 :=
                if !dualResult.recruiter.isMockData then
                  setCachedDual cleanUsername dualResult profileData now cache1
                else cache1
              ({ success := true, data := some (dualResult.select persona),
                 profileData := some profileData }, cache2)

/-! ## performComparison (the comparison server action) -/

structure CompareResponse where
  success : Bool
  data : Option CompareResult := none
  error : Option String := none
deriving DecidableEq

/-- The persisted battle row written by prisma.battle.create. -/
structure BattleRecord where
  user1 : String
  user2 : String
  score1 : Int
  score2 : Int
  winner : String
  persona : Persona
deriving DecidableEq

/-- External effects a performComparison run performs, in order. -/
inductive ExtCall
  | fetchLite (username : String)
  | modelCompare (username1 username2 : String) (persona : Persona)
  | dbCreate (record : BattleRecord)
deriving DecidableEq

/-- Environment of one performComparison run.  Every value thrown inside the
try block is an Err carrying its message (the catch reads error.message, with
"Analysis Failed" only for non-Error throws, which this model does not
produce). -/
structure CompareActionEnv where
  rateLimitResult : RateLimitResult
  extracted1 : Option String
  extracted2 : Option String
  fetch1 : Except Err GitHubProfileData
  fetch2 : Except Err GitHubProfileData
  compareOutcome : Except Err CompareResult
  dbOk : Bool

def selfBattleError : String :=
  "You can\x27t battle yourself! Enter two different usernames."

/-- performComparison: rate limit, validation of both extracted handles, the
case-insensitive self-battle rejection, sequential profile fetches, the
comparison call, and the best-effort battle persistence.  Besides the
response, the ordered list of external calls the run performed is returned;
the catch block forwards the message of the thrown error. -/
def performComparison (env : CompareActionEnv) (persona : Persona) :
    CompareResponse × List ExtCall :=
  if !env.rateLimitResult.allowed then
    ({ success := false,
       error := some ("Too many requests. Please wait " ++
         toString (ceilSeconds (jsNumOr env.rateLimitResult.retryAfterMs 0)) ++
         " seconds.") }, [])
  else
    match jsStrTruthy env.extracted1, jsStrTruthy env.extracted2 with
    | some clean1, some clean2 =>
      if clean1.jsLower = clean2.jsLower then
        ({ success := false, error := some selfBattleError }, [])
      else
        match env.fetch1 with
        | Except.error e =>
            ({ success := false, error := some e.message }, [ExtCall.fetchLite clean1])
        | Except.ok _ =>
          match env.fetch2 with
          | Except.error e =>
              ({ success := false, error := some e.message },
               [ExtCall.fetchLite clean1, ExtCall.fetchLite clean2])
          | Except.ok _ =>
            match env.compareOutcome with
            | Except.error e =>
                ({ success := false, error := some e.message },
                 [ExtCall.fetchLite clean1, ExtCall.fetchLite clean2,
                  ExtCall.modelCompare clean1 clean2 persona])
            | Except.ok result =>
              let record : BattleRecord :=
                { user1 := clean1, user2 := clean2,
                  score1 := result.user1_stats.score,
                  score2 := result.user2_stats.score,
                  winner := if result.winner = "user1" then clean1 else clean2,
                  persona := persona }
              ({ success := true, data := some result },
               [ExtCall.fetchLite clean1, ExtCall.fetchLite clean2,
                ExtCall.modelCompare clean1 clean2 persona, ExtCall.dbCreate record])
    | _, _ =>
      ({ success := false,
         error := some "Please enter valid GitHub usernames or profile URLs for both challengers." },
       [])

/-- First error thrown inside the try block of performComparison, if any:
the first fetch, then the second fetch, then the comparison call. -/
def compareTryFailure (env : CompareActionEnv) : Option Err :=
  match env.fetch1 with
  | Except.error e => some e
  | Except.ok _ =>
    match env.fetch2 with
    | Except.error e => some e
    | Except.ok _ =>
      match env.compareOutcome with
      | Except.error e => some e
      | Except.ok _ => none

def sampleUser (login : String) : GitHubUser :=
  { login := login, name := none, bio := none, avatar_url := "", html_url := "",
    company := none, location := none, blog := none, twitter_username := none,
    followers := 0, following := 0, public_repos := 0, public_gists := 0,
    created_at := "", updated_at := "" }

def sampleProfile (login : String) : GitHubProfileData :=
  { user := sampleUser login, repos := [], fetchedAt := "" }

def failingAIEnv : AIEnv :=
  { demoMode := false, apiKey := some "sk-test-key",
    attempts := fun _ => Except.error { message := "Empty response from AI" } }

def failingCompareAIEnv : CompareAIEnv :=
  { demoMode := false, apiKey := some "sk-test-key",
    attempts := fun _ => Except.error { message := "429 Too Many Requests" } }

def okRateLimit : RateLimitResult :=
  { allowed := true, remaining := 9, retryAfterMs := none }

/-- Run of performAnalysis in which analyzeProfile came back with the flagged
fallback (its recruiter side carries isMockData). -/
def mockFallbackActionEnv : ActionEnv :=
  { rateLimitResult := okRateLimit
    extracted := some "alice"
    fetchOutcome := Except.ok (sampleProfile "alice")
    analyzeOutcome := Except.ok fallbackDual }

/-- Run of performComparison whose two extracted handles differ only by case. -/
def selfBattleEnv : CompareActionEnv :=
  { rateLimitResult := okRateLimit
    extracted1 := some "Alice"
    extracted2 := some "alice"
    fetch1 := Except.ok (sampleProfile "Alice")
    fetch2 := Except.ok (sampleProfile "alice")
    compareOutcome := Except.error { message := "unreached" }
    dbOk := true }

/-- Run of performComparison whose first profile fetch throws an error with an
internal, low-level message. -/
def rawErrorEnv : CompareActionEnv :=
  { rateLimitResult := okRateLimit
    extracted1 := some "alice"
    extracted2 := some "bob"
    fetch1 := Except.error { message := "connect ECONNRESET 140.82.112.3:443" }
    fetch2 := Except.ok (sampleProfile "bob")
    compareOutcome := Except.error { message := "unreached" }
    dbOk := true }

/-- A comparison result whose winner designation is the tie value. -/
def tieResult : CompareResult :=
  { winner := "tie"
    winner_reason := "Both candidates are evenly matched."
    head_to_head := { velocity := "user1", quality := "user2", impact := "user1" }
    user1_stats := { score := 70, top_repo := "repo-a" }
    user2_stats := { score := 70, top_repo := "repo-b" }
    user1_username := "alice"
    user2_username := "bob" }

/-- Successful run of performComparison in which the model designated a tie. -/
def tieEnv : CompareActionEnv :=
  { rateLimitResult := okRateLimit
    extracted1 := some "alice"
    extracted2 := some "bob"
    fetch1 := Except.ok (sampleProfile "alice")
    fetch2 := Except.ok (sampleProfile "bob")
    compareOutcome := Except.ok tieResult
    dbOk := true }

/-! ## Sample input used by the witnesses -/

/-- A concrete parsed model response: zero total, two absent dimensions, one
oversized and one negative dimension score, a verdict outside the fixed set,
and a non-array feedback field. -/
def sampleParsed : AnalysisResult :=
  { total_score := some 0
    summary := "sample summary"
    role_fit := "Junior Dev"
    dimensions :=
      { documentation := some { score := 23, comment := "too high" }
        code_structure := none
        consistency := some { score := -4, comment := "negative" }
        impact := none
        technical_depth := some { score := 7, comment := "in range" } }
    recruiter_verdict := "Maybe"
    actionable_feedback := none }

/-! ## Range lemmas for the clamps -/

theorem clampDimScore_nonneg (raw : Int) : 0 ≤ clampDimScore raw :=
  le_max_left 0 _

theorem clampDimScore_le_ten (raw : Int) : clampDimScore raw ≤ 10 :=
  max_le (by norm_num) (min_le_left _ _)

theorem dimContribution_nonneg (d : Option DimensionScore) : 0 ≤ dimContribution d := by
  cases d with
  | none => simp [dimContribution]
  | some d => exact clampDimScore_nonneg d.score

theorem dimContribution_le_ten (d : Option DimensionScore) : dimContribution d ≤ 10 := by
  cases d with
  | none => simp [dimContribution]
  | some d => exact clampDimScore_le_ten d.score

theorem calculatedTotal_bounds (dims : Dimensions) :
    0 ≤ calculatedTotal dims ∧ calculatedTotal dims ≤ 50 := by
  have h1 := dimContribution_nonneg dims.documentation
  have h2 := dimContribution_nonneg dims.code_structure
  have h3 := dimContribution_nonneg dims.consistency
  have h4 := dimContribution_nonneg dims.impact
  have h5 := dimContribution_nonneg dims.technical_depth
  have g1 := dimContribution_le_ten dims.documentation
  have g2 := dimContribution_le_ten dims.code_structure
  have g3 := dimContribution_le_ten dims.consistency
  have g4 := dimContribution_le_ten dims.impact
  have g5 := dimContribution_le_ten dims.technical_depth
  unfold calculatedTotal
  omega

theorem validatedTotal_bounds (parsed : AnalysisResult) :
    0 ≤ validatedTotal parsed ∧ validatedTotal parsed ≤ 100 := by
  unfold validatedTotal
  split
  · have h := calculatedTotal_bounds parsed.dimensions
    omega
  · refine ⟨le_max_left 0 _, max_le (by norm_num) (min_le_left _ _)⟩

theorem validateDim_isSome (d : Option DimensionScore) :
    (validateDim d).isSome = d.isSome := by
  cases d <;> rfl

theorem validateDim_score_bounds (x : Option DimensionScore) (d : DimensionScore)
    (h : validateDim x = some d) : 0 ≤ d.score ∧ d.score ≤ 10 := by
  cases x with
  | none => simp [validateDim] at h
  | some d0 =>
      simp only [validateDim, Option.some.injEq] at h
      subst h
      exact ⟨clampDimScore_nonneg d0.score, clampDimScore_le_ten d0.score⟩

/-! ## Claim C1 -/

/-- C1: the comparison cache key of compareProfiles is invariant under swapping
the two profiles: it is battle- followed by both lowercased handles sorted
alphabetically and the persona, so compareProfiles(A, B, p) and
compareProfiles(B, A, p) compute the same key. -/
theorem compareProfiles_cacheKey_symmetric (A B : GitHubProfileData) (p : Persona) :
    compareCacheKey A B p = compareCacheKey B A p := by
  simp only [compareCacheKey, jsSortPair]
  split_ifs with h1 h2 h3
  · have hab : A.user.login.jsLower = B.user.login.jsLower := le_antisymm h1 h2
    rw [hab]
  · rfl
  · rfl
  · rcases le_total A.user.login.jsLower B.user.login.jsLower with h | h
    · exact absurd h h1
    · exact absurd h h3

/-! ## Claim C2 -/

/-- C2: every result of validateAnalysis (the normalization applied on the live
path of analyzeProfile) has a total score in [0, 100] and every dimension
entry it carries has a score in [0, 10]. -/
theorem validateAnalysis_scores_in_range (a : AnalysisResult) (t : Int)
    (ht : (validateAnalysis a).total_score = some t) :
    (0 ≤ t ∧ t ≤ 100) ∧
      ∀ (k : DimKey) (d : DimensionScore),
        (validateAnalysis a).dimensions.get k = some d → 0 ≤ d.score ∧ d.score ≤ 10 := by
  have ht2 : some (validatedTotal a) = some t := ht
  have hteq : validatedTotal a = t := Option.some.inj ht2
  constructor
  · rw [← hteq]; exact validatedTotal_bounds a
  · intro k d hd
    cases k <;>
      first
      | exact validateDim_score_bounds a.dimensions.documentation d hd
      | exact validateDim_score_bounds a.dimensions.code_structure d hd
      | exact validateDim_score_bounds a.dimensions.consistency d hd
      | exact validateDim_score_bounds a.dimensions.impact d hd
      | exact validateDim_score_bounds a.dimensions.technical_depth d hd

theorem validateAnalysis_scores_in_range_witness :
    ((0:Int) ≤ (34:Int) ∧ (34:Int) ≤ 100) ∧
      ∀ (k : DimKey) (d : DimensionScore),
        (validateAnalysis sampleParsed).dimensions.get k = some d →
          0 ≤ d.score ∧ d.score ≤ 10 :=
  validateAnalysis_scores_in_range sampleParsed 34 (by decide)

/-! ## Claim C6 -/

/-- C6: validateAnalysis keeps a verdict that is one of the three fixed values
unchanged, and replaces any other verdict by one derived from the final
clamped total score with thresholds 70 (Strong Hire) and 45 (Interview);
below 45 yields Pass. -/
theorem validateAnalysis_verdict_rule (a : AnalysisResult) :
    (fixedVerdicts.contains a.recruiter_verdict = true →
        (validateAnalysis a).recruiter_verdict = a.recruiter_verdict) ∧
    (fixedVerdicts.contains a.recruiter_verdict = false →
        (validateAnalysis a).recruiter_verdict = verdictFromScore (validatedTotal a) ∧
        (validateAnalysis a).total_score = some (validatedTotal a)) ∧
    (∀ s : Int, 70 ≤ s → verdictFromScore s = "Strong Hire") ∧
    (∀ s : Int, 45 ≤ s → s < 70 → verdictFromScore s = "Interview") ∧
    (∀ s : Int, s < 45 → verdictFromScore s = "Pass") := by
  refine ⟨?_, ?_, ?_, ?_, ?_⟩
  · intro h
    simp only [validateAnalysis, h, if_true]
  · intro h
    refine ⟨?_, rfl⟩
    simp only [validateAnalysis, h]
    rfl
  · intro s hs
    simp [verdictFromScore, hs]
  · intro s h45 h70
    have hns : ¬ s ≥ 70 := by omega
    have hys : s ≥ 45 := h45
    simp [verdictFromScore, hns, hys]
  · intro s hlt
    have hns : ¬ s ≥ 70 := by omega
    have hns2 : ¬ s ≥ 45 := by omega
    simp [verdictFromScore, hns, hns2]

theorem validateAnalysis_verdict_rule_witness :
    (validateAnalysis sampleParsed).recruiter_verdict =
        verdictFromScore (validatedTotal sampleParsed) ∧
      (validateAnalysis sampleParsed).total_score = some (validatedTotal sampleParsed) :=
  (validateAnalysis_verdict_rule sampleParsed).2.1 (by decide)

/-! ## Claim C10 -/

/-- C10: validateAnalysis preserves exactly the dimension keys of its input
(no entry is invented for an absent key and none is dropped), an absent key
contributes 0 to calculatedTotal, and when the incoming total clamps to 0 the
recomputed total is calculatedTotal * 2 over those contributions alone. -/
theorem validateAnalysis_dimension_preservation (a : AnalysisResult) :
    (∀ k : DimKey,
        ((validateAnalysis a).dimensions.get k).isSome = (a.dimensions.get k).isSome) ∧
    (∀ k : DimKey, a.dimensions.get k = none → dimContribution (a.dimensions.get k) = 0) ∧
    (firstClampedTotal a = 0 →
        (validateAnalysis a).total_score = some (calculatedTotal a.dimensions * 2)) := by
  refine ⟨?_, ?_, ?_⟩
  · intro k
    cases k <;> simp [validateAnalysis, Dimensions.get, validateDim_isSome]
  · intro k h
    rw [h]
    rfl
  · intro h
    simp only [validateAnalysis, validatedTotal, h, if_pos]

/-! ## Claim C3 -/

/-- C3: after both attempts fail, analyzeProfile returns the static demo result
flagged with isMockData and a note prepended to each summary saying live
analysis failed, while the raw comparison throws its final (second) attempt
error to the caller instead of returning a fallback. -/
theorem retry_exhaustion_fallback_vs_throw
    (envA : AIEnv) (envC : CompareAIEnv) (pd pd1 pd2 : GitHubProfileData) (p : Persona)
    (kA kC : String) (ea0 ea1 ec0 ec1 : Err)
    (hdemoA : ¬ (pd.user.login.jsLower = "demo" ∨ pd.user.login.jsLower = "test" ∨
        envA.demoMode))
    (hkeyA : envA.apiKey = some kA)
    (ha0 : envA.attempts 0 = Except.error ea0)
    (ha1 : envA.attempts 1 = Except.error ea1)
    (hdemoC : ¬ (envC.demoMode ∨ pd1.user.login.jsLower = "demo" ∨
        pd2.user.login.jsLower = "demo"))
    (hkeyC : envC.apiKey = some kC)
    (hc0 : envC.attempts 0 = Except.error ec0)
    (hc1 : envC.attempts 1 = Except.error ec1) :
    analyzeProfile envA pd = Except.ok fallbackDual ∧
      fallbackDual.recruiter.isMockData = true ∧
      fallbackDual.founder.isMockData = true ∧
      fallbackDual.recruiter.summary = failNotePrefix ++ MOCK_DUAL.recruiter.summary ∧
      fallbackDual.founder.summary = failNotePrefix ++ MOCK_DUAL.founder.summary ∧
      compareProfilesRaw envC pd1 pd2 p = Except.error ec1 := by
  refine ⟨?_, rfl, rfl, rfl, rfl, ?_⟩
  · simp only [analyzeProfile, if_neg hdemoA, hkeyA, MAX_RETRIES, retryAttempts, ha0, ha1]
  · simp only [compareProfilesRaw, if_neg hdemoC, hkeyC, MAX_RETRIES, retryAttempts, hc0, hc1,
      Option.getD_some]

theorem retry_exhaustion_fallback_vs_throw_witness :
    analyzeProfile failingAIEnv (sampleProfile "alice") = Except.ok fallbackDual ∧
      fallbackDual.recruiter.isMockData = true ∧
      fallbackDual.founder.isMockData = true ∧
      fallbackDual.recruiter.summary = failNotePrefix ++ MOCK_DUAL.recruiter.summary ∧
      fallbackDual.founder.summary = failNotePrefix ++ MOCK_DUAL.founder.summary ∧
      compareProfilesRaw failingCompareAIEnv (sampleProfile "alice") (sampleProfile "bob")
          Persona.recruiter =
        Except.error { message := "429 Too Many Requests" } :=
  retry_exhaustion_fallback_vs_throw failingAIEnv failingCompareAIEnv
    (sampleProfile "alice") (sampleProfile "alice") (sampleProfile "bob") Persona.recruiter
    "sk-test-key" "sk-test-key"
    { message := "Empty response from AI" } { message := "Empty response from AI" }
    { message := "429 Too Many Requests" } { message := "429 Too Many Requests" }
    (by decide) rfl rfl rfl (by decide) rfl rfl rfl

theorem validateAnalysis_dimension_preservation_witness :
    (((validateAnalysis sampleParsed).dimensions.get DimKey.code_structure).isSome =
        (sampleParsed.dimensions.get DimKey.code_structure).isSome) ∧
      (validateAnalysis sampleParsed).total_score =
        some (calculatedTotal sampleParsed.dimensions * 2) :=
  ⟨(validateAnalysis_dimension_preservation sampleParsed).1 DimKey.code_structure,
   (validateAnalysis_dimension_preservation sampleParsed).2.2 (by decide)⟩

/-! ## Lemmas on the cache association list -/

theorem cacheGet_set (cache : Cache) (key : String) (v : DualCacheEntry) :
    cacheGet (cacheSet cache key v) key = some v := by
  simp [cacheSet, cacheGet]

theorem cacheGet_delete (cache : Cache) (key : String) :
    cacheGet (cacheDelete cache key) key = none := by
  induction cache with
  | nil => rfl
  | cons p t ih =>
      simp only [cacheDelete]
      split_ifs with h
      · exact ih
      · simp [cacheGet, h, ih]

theorem getCachedDual_absent (username : String) (cache : Cache) (now : Int)
    (h : cacheGet cache username.jsLower = none) :
    getCachedDual username cache now = (none, cache) := by
  simp [getCachedDual, h]

theorem getCachedDual_miss_get (username : String) (cache : Cache) (now : Int)
    (h : (getCachedDual username cache now).1 = none) :
    cacheGet (getCachedDual username cache now).2 username.jsLower = none := by
  cases hg : cacheGet cache username.jsLower with
  | none => simp [getCachedDual, hg]
  | some entry =>
      by_cases ht : now - entry.timestamp > CACHE_TTL_MS
      · simp [getCachedDual, hg, ht, cacheGet_delete]
      · simp [getCachedDual, hg, ht] at h

/-! ## Claim C5 -/

/-- C5: an entry of the dual-analysis cache written at tWrite and looked up at
tRead is a miss that evicts the entry when tRead - tWrite exceeds
CACHE_TTL_MS (10 minutes), and a hit returning the stored value when
tRead - tWrite is at most CACHE_TTL_MS. -/
theorem cache_ttl_semantics (cache : Cache) (username : String)
    (dual : DualAnalysisResult) (pd : GitHubProfileData) (tWrite tRead : Int) :
    (tRead - tWrite > CACHE_TTL_MS →
        getCachedDual username (setCachedDual username dual pd tWrite cache) tRead =
          (none,
           cacheDelete (setCachedDual username dual pd tWrite cache) username.jsLower) ∧
        cacheGet
            (getCachedDual username (setCachedDual username dual pd tWrite cache) tRead).2
            username.jsLower = none) ∧
    (tRead - tWrite ≤ CACHE_TTL_MS →
        getCachedDual username (setCachedDual username dual pd tWrite cache) tRead =
          (some { dualResult := dual, profileData := pd, timestamp := tWrite },
           setCachedDual username dual pd tWrite cache)) := by
  have hset : cacheGet (setCachedDual username dual pd tWrite cache) username.jsLower =
      some { dualResult := dual, profileData := pd, timestamp := tWrite } :=
    cacheGet_set cache username.jsLower _
  constructor
  · intro h
    constructor
    · simp [getCachedDual, hset, h]
    · simp [getCachedDual, hset, h, cacheGet_delete]
  · intro h
    have h2 : ¬ tRead - tWrite > CACHE_TTL_MS := by omega
    simp [getCachedDual, hset, h2]

theorem cache_ttl_semantics_witness :
    (getCachedDual "octocat"
        (setCachedDual "octocat" MOCK_DUAL (sampleProfile "octocat") 0 []) 601000).1 = none ∧
    (getCachedDual "octocat"
        (setCachedDual "octocat" MOCK_DUAL (sampleProfile "octocat") 0 []) 599000).1 =
      some { dualResult := MOCK_DUAL, profileData := sampleProfile "octocat",
             timestamp := 0 } := by
  constructor
  · have h :=
      ((cache_ttl_semantics [] "octocat" MOCK_DUAL (sampleProfile "octocat") 0 601000).1
        (by decide)).1
    rw [h]
  · have h :=
      (cache_ttl_semantics [] "octocat" MOCK_DUAL (sampleProfile "octocat") 0 599000).2
        (by decide)
    rw [h]

/-! ## Claim C4 -/

/-- C4: a run of performAnalysis in which analyzeProfile returned a flagged
fallback never writes to the cache: the final cache is exactly the cache
after the (miss) lookup, the key has no entry afterwards, and when the key
was not present at all the cache is unchanged, while the response is still a
success. -/
theorem performAnalysis_never_caches_mock (env : ActionEnv) (cache : Cache) (now : Int)
    (persona : Persona) (c : String) (pd : GitHubProfileData) (d : DualAnalysisResult)
    (hrate : env.rateLimitResult.allowed = true)
    (hext : jsStrTruthy env.extracted = some c)
    (hlen : ¬ c.length > 39)
    (hmiss : (getCachedDual c cache now).1 = none)
    (hfetch : env.fetchOutcome = Except.ok pd)
    (hanalyze : env.analyzeOutcome = Except.ok d)
    (hmock : d.recruiter.isMockData = true) :
    (performAnalysis env cache now persona).2 = (getCachedDual c cache now).2 ∧
    cacheGet (performAnalysis env cache now persona).2 c.jsLower = none ∧
    (cacheGet cache c.jsLower = none → (performAnalysis env cache now persona).2 = cache) ∧
    (performAnalysis env cache now persona).1.success = true := by
  rcases hga : getCachedDual c cache now with ⟨res, cache1⟩
  have hres : res = none := by rw [hga] at hmiss; exact hmiss
  subst hres
  have hpa : performAnalysis env cache now persona =
      ({ success := true, data := some (d.select persona), profileData := some pd },
       cache1) := by
    simp [performAnalysis, hrate, hext, hlen, hga, hfetch, hanalyze, hmock]
  refine ⟨?_, ?_, ?_, ?_⟩
  · simp [hpa]
  · simp only [hpa]
    have h2 := getCachedDual_miss_get c cache now hmiss
    rw [hga] at h2
    simpa using h2
  · intro habs
    have h3 := getCachedDual_absent c cache now habs
    rw [h3] at hga
    have h5 : cache = cache1 := by injection hga with h4 h5
    simp [hpa, ← h5]
  · simp [hpa]

theorem performAnalysis_never_caches_mock_witness :
    (performAnalysis mockFallbackActionEnv [] 0 Persona.recruiter).2 = ([] : Cache) ∧
    (performAnalysis mockFallbackActionEnv [] 0 Persona.recruiter).1.success = true :=
  have h := performAnalysis_never_caches_mock mockFallbackActionEnv [] 0 Persona.recruiter
    "alice" (sampleProfile "alice") fallbackDual rfl (by decide) (by decide) rfl rfl rfl rfl
  ⟨h.2.2.1 rfl, h.2.2.2⟩

/-! ## Claim C7 -/

/-- C7: when both extracted handles are case-insensitively equal,
performComparison answers with the self-battle error and performs no external
call at all: the self-battle check precedes every fetch and the model call. -/
theorem performComparison_self_battle (env : CompareActionEnv) (persona : Persona)
    (c1 c2 : String)
    (hrate : env.rateLimitResult.allowed = true)
    (h1 : jsStrTruthy env.extracted1 = some c1)
    (h2 : jsStrTruthy env.extracted2 = some c2)
    (heq : c1.jsLower = c2.jsLower) :
    performComparison env persona =
      ({ success := false, data := none, error := some selfBattleError }, []) := by
  simp [performComparison, hrate, h1, h2, heq]

theorem performComparison_self_battle_witness :
    performComparison selfBattleEnv Persona.recruiter =
      ({ success := false, data := none, error := some selfBattleError }, []) :=
  performComparison_self_battle selfBattleEnv Persona.recruiter "Alice" "alice"
    rfl (by decide) (by decide) (by decide)

/-! ## Claim C8 -/

/-- C8 counterexample: the first fetch of this run throws an error carrying a
low-level network message, and performComparison returns exactly that raw
internal message in the error field of its response, so the returned error is
not a pre-sanitized string. -/
theorem performComparison_raw_error_counterexample :
    rawErrorEnv.fetch1 =
        Except.error { message := "connect ECONNRESET 140.82.112.3:443" } ∧
    (performComparison rawErrorEnv Persona.recruiter).1 =
      { success := false, data := none,
        error := some "connect ECONNRESET 140.82.112.3:443" } := by
  exact ⟨rfl, by decide⟩

/-- C8 amended: for every run that reaches the try block, whatever error the
block throws (first fetch, second fetch, or the comparison call after its
retries), performComparison returns success false with exactly the raw
message of that error; no sanitization is applied on this path. -/
theorem performComparison_error_is_raw_message (env : CompareActionEnv) (persona : Persona)
    (c1 c2 : String) (e : Err)
    (hrate : env.rateLimitResult.allowed = true)
    (h1 : jsStrTruthy env.extracted1 = some c1)
    (h2 : jsStrTruthy env.extracted2 = some c2)
    (hne : ¬ c1.jsLower = c2.jsLower)
    (hfail : compareTryFailure env = some e) :
    (performComparison env persona).1 =
      { success := false, data := none, error := some e.message } := by
  cases hf1 : env.fetch1 with
  | error e1 =>
      have he : e1 = e := by
        simp [compareTryFailure, hf1] at hfail
        exact hfail
      subst he
      simp [performComparison, hrate, h1, h2, hne, hf1]
  | ok p1 =>
    cases hf2 : env.fetch2 with
    | error e2 =>
        have he : e2 = e := by
          simp [compareTryFailure, hf1, hf2] at hfail
          exact hfail
        subst he
        simp [performComparison, hrate, h1, h2, hne, hf1, hf2]
    | ok p2 =>
      cases hc : env.compareOutcome with
      | error e3 =>
          have he : e3 = e := by
            simp [compareTryFailure, hf1, hf2, hc] at hfail
            exact hfail
          subst he
          simp [performComparison, hrate, h1, h2, hne, hf1, hf2, hc]
      | ok r =>
          simp [compareTryFailure, hf1, hf2, hc] at hfail

theorem performComparison_error_is_raw_message_witness :
    (performComparison rawErrorEnv Persona.recruiter).1 =
      { success := false, data := none,
        error := some "connect ECONNRESET 140.82.112.3:443" } :=
  performComparison_error_is_raw_message rawErrorEnv Persona.recruiter "alice" "bob"
    { message := "connect ECONNRESET 140.82.112.3:443" }
    rfl (by decide) (by decide) (by decide) rfl

/-! ## Claim C9 -/

/-- C9 counterexample: in a persisted comparison whose CompareResult designates
the tie value as winner, the stored BattleRecord names participant 2 as the
winner, which is neither a tie marker nor the designated (non-existent)
winning participant. -/
theorem performComparison_tie_stored_as_user2_counterexample :
    tieResult.winner = "tie" ∧
    (performComparison tieEnv Persona.recruiter).2 =
      [ExtCall.fetchLite "alice", ExtCall.fetchLite "bob",
       ExtCall.modelCompare "alice" "bob" Persona.recruiter,
       ExtCall.dbCreate
         { user1 := "alice", user2 := "bob", score1 := 70, score2 := 70,
           winner := "bob", persona := Persona.recruiter }] ∧
    ("bob" : String) ≠ "tie" := by
  exact ⟨rfl, by decide, by decide⟩

/-- C9 amended: the persisted winner field is clean1 when the result designates
user1 and clean2 otherwise; in particular the designation user1 stores
participant 1, user2 stores participant 2, and a tie also stores participant
2 (the ternary has no tie branch). -/
theorem performComparison_winner_persistence (env : CompareActionEnv) (persona : Persona)
    (c1 c2 : String) (r : CompareResult) (p1 p2 : GitHubProfileData)
    (hrate : env.rateLimitResult.allowed = true)
    (h1 : jsStrTruthy env.extracted1 = some c1)
    (h2 : jsStrTruthy env.extracted2 = some c2)
    (hne : ¬ c1.jsLower = c2.jsLower)
    (hf1 : env.fetch1 = Except.ok p1)
    (hf2 : env.fetch2 = Except.ok p2)
    (hcmp : env.compareOutcome = Except.ok r) :
    (performComparison env persona).2 =
      [ExtCall.fetchLite c1, ExtCall.fetchLite c2, ExtCall.modelCompare c1 c2 persona,
       ExtCall.dbCreate
         { user1 := c1, user2 := c2, score1 := r.user1_stats.score,
           score2 := r.user2_stats.score,
           winner := if r.winner = "user1" then c1 else c2, persona := persona }] ∧
    (r.winner = "user1" → (if r.winner = "user1" then c1 else c2) = c1) ∧
    (r.winner = "user2" → (if r.winner = "user1" then c1 else c2) = c2) ∧
    (r.winner = "tie" → (if r.winner = "user1" then c1 else c2) = c2) := by
  refine ⟨?_, ?_, ?_, ?_⟩
  · simp [performComparison, hrate, h1, h2, hne, hf1, hf2, hcmp]
  · intro h
    rw [if_pos h]
  · intro h
    rw [h, if_neg (by decide)]
  · intro h
    rw [h, if_neg (by decide)]

theorem performComparison_winner_persistence_witness :
    (performComparison tieEnv Persona.recruiter).2 =
      [ExtCall.fetchLite "alice", ExtCall.fetchLite "bob",
       ExtCall.modelCompare "alice" "bob" Persona.recruiter,
       ExtCall.dbCreate
         { user1 := "alice", user2 := "bob", score1 := tieResult.user1_stats.score,
           score2 := tieResult.user2_stats.score,
           winner := if tieResult.winner = "user1" then "alice" else "bob",
           persona := Persona.recruiter }] ∧
    (tieResult.winner = "tie" →
      (if tieResult.winner = "user1" then "alice" else "bob") = "bob") :=
  have h := performComparison_winner_persistence tieEnv Persona.recruiter "alice" "bob"
    tieResult (sampleProfile "alice") (sampleProfile "bob")
    rfl (by decide) (by decide) (by decide) rfl rfl rfl
  ⟨h.1, h.2.2.2⟩

end GithubAnaly
